import Mathlib

/-!
Verification of the progressive path-tracer render loop of the
RippleDomain/Ray-Tracing repository.

The loop model below is a shallow embedding of the host-side state machine:
`RayTracer` members and member functions from src/rt/RayTracer.cpp, and one
iteration of the `while` loop of `App::run` from src/core/App.cpp.  C++
`float` members that the loop only compares and clamps are modelled as exact
rationals; `uint32_t` counters are naturals reduced modulo 2^32 where the
code increments them.  GPU calls are modelled by their recorded observable
effects (command-buffer contents relevant to the claims) and by the result
codes the loop inspects; `VK_CHECK` (src/util/Check.h) throws on any result
other than `VK_SUCCESS`, modelled by the step function returning `none`.

The camera parameter derivation (`RayTracer::makeCameraParams`) is
real-valued and is embedded over `ℝ` in the `CameraMath` section further
down; there float arithmetic is idealised as exact real arithmetic, and the
IEEE NaN produced by a division by zero corresponds to Lean's zero-valued
division, which the relevant statements make explicit by asserting that the
divisor itself is zero.
-/

set_option autoImplicit false

namespace RTLoop

/-- 2^32, the wrap-around modulus of the C++ `uint32_t` counters. -/
def U32 : Nat := 4294967296

/-- Host-visible state of `RayTracer` (src/rt/RayTracer.cpp) that the render
loop reads or writes.  `swapInit` is `mSwapchainImageInitialized`,
`accumInitialized` is `mAccumInitialized` (true exactly when the
accumulation image has had a clear recorded since its creation or most
recent resize).  The camera position/direction members are real-valued and
never influence any branch of the loop; they are modelled in the
`CameraMath` section. -/
structure Tracer where
  width : Nat
  height : Nat
  resetAccum : Bool
  accumInitialized : Bool
  swapInit : List Bool
  aperture : ℚ
  verticalFov : ℚ
  focusDistance : ℚ
  samplesPerPixel : Nat
  maxDepth : Nat
deriving Repr, DecidableEq

/-- `RayTracer::setCamera` (RayTracer.cpp:298).  The position/direction
stores do not affect the loop; the focus-distance argument (default `-1.0f`
per RayTracer.h:42 when the app calls `setCamera(pos, dir)`) is kept. -/
def Tracer.setCamera (t : Tracer) (focusDist : ℚ) : Tracer :=
  { t with
      focusDistance := if 0 < focusDist then focusDist else t.focusDistance,
      resetAccum := true }

/-- `RayTracer::setSamplesPerPixel` (RayTracer.cpp:311): `std::max(1u, spp)`. -/
def Tracer.setSamplesPerPixel (t : Tracer) (spp : Nat) : Tracer :=
  { t with samplesPerPixel := max 1 spp, resetAccum := true }

/-- `RayTracer::setAperture` (RayTracer.cpp:317): `std::max(0.0f, aperture)`. -/
def Tracer.setAperture (t : Tracer) (aperture : ℚ) : Tracer :=
  { t with aperture := max 0 aperture, resetAccum := true }

/-- `RayTracer::setFocusDistance` (RayTracer.cpp:323): stores and resets only
when the argument is positive, otherwise the call is a no-op. -/
def Tracer.setFocusDistance (t : Tracer) (focusDist : ℚ) : Tracer :=
  if 0 < focusDist then
    { t with focusDistance := focusDist, resetAccum := true }
  else
    t

/-- `RayTracer::setFov` (RayTracer.cpp:332): `std::clamp(vfov, 5.0f, 120.0f)`. -/
def Tracer.setFov (t : Tracer) (vfov : ℚ) : Tracer :=
  { t with verticalFov := min (max vfov 5) 120, resetAccum := true }

/-- `RayTracer::setMaxDepth` (RayTracer.cpp:338): `std::max(1u, depth)`. -/
def Tracer.setMaxDepth (t : Tracer) (depth : Nat) : Tracer :=
  { t with maxDepth := max 1 depth, resetAccum := true }

/-- What `RayTracer::render` (RayTracer.cpp:559) records into the command
buffer, as far as the claims are concerned: whether the accumulation image
was zero-cleared in this recording, the value of `mAccumInitialized` at the
moment the compute dispatch is recorded, the prior-layout assumption of the
acquired swapchain image, and the dispatch grid size. -/
structure RenderObs where
  cleared : Bool
  accumInitAtDispatch : Bool
  swapOldLayoutInitialized : Bool
  groupsX : Nat
  groupsY : Nat
deriving Repr, DecidableEq

/-- `RayTracer::render` (RayTracer.cpp:559-685).  `clearAccum` is literally
`mResetAccum || frameIndex == 0` (line 564); when it holds, the accumulation
image is transitioned and zero-cleared, `mAccumInitialized` becomes true and
`mResetAccum` false (lines 566-603).  The acquired swapchain slot is then
marked initialized (line 627) and the compute dispatch is recorded over a
grid of ceil(extent/8) tiles (lines 659-661). -/
def Tracer.render (t : Tracer) (swapImageIndex : Nat) (frameIndex : Nat) :
    Tracer × RenderObs :=
  let clearAccum := t.resetAccum || frameIndex == 0
  let t1 :=
    if clearAccum then { t with accumInitialized := true, resetAccum := false } else t
  let oldInit := t1.swapInit.getD swapImageIndex false
  let t2 := { t1 with swapInit := t1.swapInit.set swapImageIndex true }
  (t2,
    { cleared := clearAccum,
      accumInitAtDispatch := t1.accumInitialized,
      swapOldLayoutInitialized := oldInit,
      groupsX := (t.width + 7) / 8,
      groupsY := (t.height + 7) / 8 })

/-- `RayTracer::resize` (RayTracer.cpp:201-234): the accumulation image and
descriptor slots are recreated at the new swapchain extent, every swapchain
image slot is marked uninitialized, and the accumulation state is
invalidated (`mResetAccum = true`, `mAccumInitialized = false`). -/
def Tracer.resize (t : Tracer) (w h imageCount : Nat) : Tracer :=
  { t with
      width := w, height := h,
      resetAccum := true,
      accumInitialized := false,
      swapInit := List.replicate imageCount false }

/-- `RayTracer::create` (RayTracer.cpp:179-199) combined with the default
member initializers of RayTracer.h:77-89.  The camera-direction and
focus-distance assignments of lines 190-193 are real-valued (length and
normalize of `(0,1,0) - (13,2,3)`, an irrational `Real.sqrt 179`) and are
modelled in the `CameraMath` section; they influence no branch of the loop
model, whose focus-distance field keeps the header default. -/
def Tracer.create (w h imageCount : Nat) : Tracer :=
  { width := w, height := h,
    resetAccum := true,
    accumInitialized := false,
    swapInit := List.replicate imageCount false,
    aperture := 1/20,
    verticalFov := 20,
    focusDistance := 10,
    samplesPerPixel := 4,
    maxDepth := 12 }

/-- A UI slider change of `App::run` (App.cpp:355-379); each carries the
value handed to the corresponding `RayTracer` setter. -/
inductive UIEvent
  | setSpp (n : Nat)
  | setAperture (a : ℚ)
  | setFocusDist (d : ℚ)
  | setFov (f : ℚ)
  | setMaxDepth (d : Nat)
deriving Repr, DecidableEq

/-- Apply one slider change (the setter call recorded in the corresponding
`if (ImGui::Slider...)` body). -/
def applyUI (t : Tracer) : UIEvent → Tracer
  | .setSpp n => t.setSamplesPerPixel n
  | .setAperture a => t.setAperture a
  | .setFocusDist d => t.setFocusDistance d
  | .setFov f => t.setFov f
  | .setMaxDepth d => t.setMaxDepth d

/-- Apply the slider changes of one frame in order; each one also zeroes the
`sampleFrame` counter (App.cpp:358, 363, 368, 373, 378). -/
def applyUIEvents : List UIEvent → Tracer × Nat → Tracer × Nat
  | [], p => p
  | e :: es, p => applyUIEvents es (applyUI p.1 e, 0)

/-- Result of `Swapchain::acquireNextImage` as inspected by the loop
(App.cpp:317-328): `VK_SUCCESS` with an image index, `VK_ERROR_OUT_OF_DATE_KHR`,
`VK_SUBOPTIMAL_KHR`, or any other non-success code. -/
inductive AcquireResult
  | success (imageIndex : Nat)
  | outOfDate
  | suboptimal
  | errorOther
deriving Repr, DecidableEq

/-- Result of `Swapchain::present` as inspected by the loop (App.cpp:414-425). -/
inductive PresentResult
  | success
  | outOfDate
  | suboptimal
  | errorOther
deriving Repr, DecidableEq

/-- The environment-chosen inputs of one iteration of the `App::run` loop:
whether the window reported a framebuffer resize, whether input mutated the
camera this iteration, the acquire and present results, the slider changes,
and the extent/image count the swapchain reports after any recreation. -/
structure FrameInput where
  resized : Bool
  camChanged : Bool
  acquire : AcquireResult
  ui : List UIEvent
  present : PresentResult
  newWidth : Nat
  newHeight : Nat
  newImageCount : Nat
deriving Repr, DecidableEq

/-- Host state carried across iterations of `App::run` that the claims
mention: the tracer, the frame-in-flight index `currentFrame`, and the
sample counter `sampleFrame` (App.cpp:136-137). -/
structure AppState where
  tracer : Tracer
  currentFrame : Nat
  sampleFrame : Nat
deriving Repr, DecidableEq

/-- Observations of one loop iteration: whether a compute dispatch was
recorded, whether the accumulation image was cleared in this recording, the
value of `mResetAccum` when `RayTracer::render` began (the start of the
frame's barrier sequencing), the `frameIndex` argument handed to the render
recording, and `mAccumInitialized` at the moment of the dispatch. -/
structure FrameObs where
  rendered : Bool
  cleared : Bool
  resetAtRenderStart : Bool
  frameIndexUsed : Nat
  accumInitAtDispatch : Bool
deriving Repr, DecidableEq

/-- Observations of an iteration that records no commands (the `continue`
recovery paths). -/
def skipObs : FrameObs :=
  { rendered := false, cleared := false, resetAtRenderStart := false,
    frameIndexUsed := 0, accumInitAtDispatch := false }

/-- The tracer after the camera-mutation phase of an iteration
(App.cpp:304-308): when input changed the camera this iteration,
`tracer.setCamera(camPos, camDir)` has run (its defaulted focus-distance
argument is `-1.0f`, RayTracer.h:42). -/
def camTracer (s : AppState) (inp : FrameInput) : Tracer :=
  if inp.camChanged then s.tracer.setCamera (-1) else s.tracer

/-- The `sampleFrame` counter after the camera-mutation phase of an
iteration (App.cpp:307): zeroed when input changed the camera. -/
def camSF (s : AppState) (inp : FrameInput) : Nat :=
  if inp.camChanged then 0 else s.sampleFrame

/-- One iteration of the `while` loop of `App::run` (App.cpp:163-442).
Returns `none` when a `VK_CHECK` throws (any acquire result other than
success/out-of-date, or any present result other than
success/out-of-date/suboptimal), terminating the loop.  In order:
framebuffer-resize recovery (194-202, a `continue`), camera mutation
handling (304-308), acquire with out-of-date recovery (316-328, a
`continue`), render recording (334), slider changes (355-379), present with
out-of-date/suboptimal recovery (414-425), and the end-of-iteration
bookkeeping (440-441): `currentFrame = (currentFrame+1) % 2` and the
`uint32_t` increment `++sampleFrame`. -/
def step (s : AppState) (inp : FrameInput) : Option (AppState × FrameObs) :=
  if inp.resized then
    some
      ({ tracer := s.tracer.resize inp.newWidth inp.newHeight inp.newImageCount,
         currentFrame := s.currentFrame, sampleFrame := 0 }, skipObs)
  else
    let t0 := camTracer s inp
    let sf0 := camSF s inp
    match inp.acquire with
    | .outOfDate =>
        some
          ({ tracer := t0.resize inp.newWidth inp.newHeight inp.newImageCount,
             currentFrame := s.currentFrame, sampleFrame := 0 }, skipObs)
    | .success imageIndex =>
        let r := t0.render imageIndex sf0
        let obs : FrameObs :=
          { rendered := true, cleared := r.2.cleared,
            resetAtRenderStart := t0.resetAccum,
            frameIndexUsed := sf0,
            accumInitAtDispatch := r.2.accumInitAtDispatch }
        let p := applyUIEvents inp.ui (r.1, sf0)
        match inp.present with
        | .success =>
            some
              ({ tracer := p.1,
                 currentFrame := (s.currentFrame + 1) % 2,
                 sampleFrame := (p.2 + 1) % U32 }, obs)
        | .outOfDate =>
            some
              ({ tracer := p.1.resize inp.newWidth inp.newHeight inp.newImageCount,
                 currentFrame := (s.currentFrame + 1) % 2,
                 sampleFrame := (0 + 1) % U32 }, obs)
        | .suboptimal =>
            some
              ({ tracer := p.1.resize inp.newWidth inp.newHeight inp.newImageCount,
                 currentFrame := (s.currentFrame + 1) % 2,
                 sampleFrame := (0 + 1) % U32 }, obs)
        | .errorOther => none
    | .suboptimal => none
    | .errorOther => none

/-- The state at the top of the first loop iteration (App.cpp:131-137):
`tracer.create` followed by the startup calls `setSamplesPerPixel(4)` and
`setAperture(0.05f)`, with `currentFrame = 0` and `sampleFrame = 0`. -/
def initialState (w h imageCount : Nat) : AppState :=
  { tracer := ((Tracer.create w h imageCount).setSamplesPerPixel 4).setAperture (1/20),
    currentFrame := 0, sampleFrame := 0 }

/-- States the `App::run` loop can actually be in at the top of an
iteration. -/
inductive Reachable : AppState → Prop
  | init (w h imageCount : Nat) : Reachable (initialState w h imageCount)
  | next (s : AppState) (inp : FrameInput) (s' : AppState) (obs : FrameObs) :
      Reachable s → step s inp = some (s', obs) → Reachable s'

/-- An iteration input with no window, camera, UI or surface events and a
successful acquire of image 0. -/
def idleInput : FrameInput :=
  { resized := false, camChanged := false, acquire := .success 0, ui := [],
    present := .success, newWidth := 0, newHeight := 0, newImageCount := 0 }

/-- `idleInput` except that the camera was mutated this iteration. -/
def camInput : FrameInput :=
  { idleInput with camChanged := true }

/-- `idleInput` except that `present` returned `VK_SUBOPTIMAL_KHR`. -/
def subOptInput : FrameInput :=
  { idleInput with present := .suboptimal }

/-- `idleInput` except that acquire returned `VK_ERROR_OUT_OF_DATE_KHR`,
with the recreated swapchain reporting a 800 by 600 extent and 3 images. -/
def oodInput : FrameInput :=
  { idleInput with acquire := .outOfDate, newWidth := 800, newHeight := 600,
                   newImageCount := 3 }

/-- `idleInput` except that the window reported a framebuffer resize, with
the recreated swapchain reporting a 800 by 600 extent and 2 images. -/
def resizeInput : FrameInput :=
  { idleInput with resized := true, newWidth := 800, newHeight := 600,
                   newImageCount := 2 }

/-- `idleInput` except that acquire returned `VK_SUBOPTIMAL_KHR`. -/
def acqSubOptInput : FrameInput :=
  { idleInput with acquire := .suboptimal }

/-- The state transition of an iteration, ignoring the fatal case (used only
to iterate along inputs on which `step` is known to succeed). -/
def stepA (s : AppState) (inp : FrameInput) : AppState :=
  match step s inp with
  | some p => p.1
  | none => s

/-- Iterate `n` event-free iterations. -/
def idleIter : Nat → AppState → AppState
  | 0, s => s
  | n + 1, s => idleIter n (stepA s idleInput)

/-- The tracer state after the first displayed frame from
`initialState 640 480 1`: accumulation cleared once, slot 0 written. -/
def steadyTracer : Tracer :=
  { width := 640, height := 480,
    resetAccum := false,
    accumInitialized := true,
    swapInit := [true],
    aperture := 1/20,
    verticalFov := 20,
    focusDistance := 10,
    samplesPerPixel := 4,
    maxDepth := 12 }

/-- The app state after one event-free frame from `initialState 640 480 1`. -/
def baseState : AppState :=
  { tracer := steadyTracer, currentFrame := 1, sampleFrame := 1 }

/-- The app state reached from `baseState` after `2^32 - 2` further
event-free frames: the `uint32_t` sample counter has advanced to
`2^32 - 1`. -/
def preWrapState : AppState :=
  { tracer := steadyTracer, currentFrame := 1, sampleFrame := U32 - 1 }

/-- One more event-free frame: `++sampleFrame` wraps the `uint32_t` counter
to 0 while `mResetAccum` stays false. -/
def wrapState : AppState :=
  { tracer := steadyTracer, currentFrame := 0, sampleFrame := 0 }

/-- A state satisfying the hypotheses under which an event-free iteration
leaves the tracer untouched: no pending invalidation, the accumulation
image already cleared once, and swapchain slot 0 already written. -/
def Steady (s : AppState) : Prop :=
  s.tracer.resetAccum = false ∧ s.tracer.accumInitialized = true ∧
    s.tracer.swapInit.set 0 true = s.tracer.swapInit

/-- Loop invariant: the `uint32_t` sample counter is in range; a pending
invalidation implies the counter is at most 1 (it was zeroed when the flag
was raised, and at most one post-render increment has happened since); and
an accumulation image that has never been cleared since creation or resize
implies a pending invalidation. -/
def WF (s : AppState) : Prop :=
  s.sampleFrame < U32 ∧
    (s.tracer.resetAccum = true → s.sampleFrame ≤ 1) ∧
    (s.tracer.accumInitialized = false → s.tracer.resetAccum = true)

end RTLoop

namespace CameraMath

noncomputable section

/-- A 3-component vector of (idealised) `float`s, as used by
`RayTracer::makeCameraParams` (RayTracer.cpp:140-177). -/
structure Vec3 where
  x : ℝ
  y : ℝ
  z : ℝ

/-- Componentwise addition. -/
def Vec3.add (a b : Vec3) : Vec3 := ⟨a.x + b.x, a.y + b.y, a.z + b.z⟩

/-- Componentwise subtraction. -/
def Vec3.sub (a b : Vec3) : Vec3 := ⟨a.x - b.x, a.y - b.y, a.z - b.z⟩

/-- Scalar multiple. -/
def Vec3.smul (c : ℝ) (a : Vec3) : Vec3 := ⟨c * a.x, c * a.y, c * a.z⟩

/-- Dot product (`glm::dot`). -/
def Vec3.dot (a b : Vec3) : ℝ := a.x * b.x + a.y * b.y + a.z * b.z

/-- Cross product (`glm::cross`). -/
def Vec3.cross (a b : Vec3) : Vec3 :=
  ⟨a.y * b.z - a.z * b.y, a.z * b.x - a.x * b.z, a.x * b.y - a.y * b.x⟩

/-- `glm::length`. -/
def Vec3.length (a : Vec3) : ℝ := Real.sqrt (a.dot a)

/-- `glm::normalize`: division of every component by the length.  For the
zero vector the length is 0 and the `float` division yields NaN; in this
real-valued model division by zero yields 0, so the degenerate case is made
explicit in the statements by asserting that the divisor is zero. -/
def Vec3.normalize (a : Vec3) : Vec3 :=
  ⟨a.x / a.length, a.y / a.length, a.z / a.length⟩

/-- The fields of `GPUParams` computed by `makeCameraParams` that the claims
mention (RayTracer.h:20-31). -/
structure CameraParams where
  origin : Vec3
  lensRadius : ℝ
  lowerLeft : Vec3
  horizontal : Vec3
  vertical : Vec3
  u : Vec3
  v : Vec3
  w : Vec3

/-- `RayTracer::makeCameraParams` (RayTracer.cpp:140-177), with `float`
arithmetic idealised over `ℝ`: `direction = normalize(mCamDir)`,
`lookAt = lookFrom + direction`, `w = normalize(lookFrom - lookAt)`,
`u = normalize(cross(vup, w))`, `v = cross(w, u)`,
`theta = radians(fov)`, `halfHeight = tan(theta/2)`, and the viewport
vectors scaled by the focus distance. -/
def makeCameraParams (mCamPos mCamDir : Vec3)
    (mVerticalFov mAperture mFocusDistance width height : ℝ) : CameraParams :=
  let lookFrom := mCamPos
  let direction := mCamDir.normalize
  let lookAt := lookFrom.add direction
  let vup : Vec3 := ⟨0, 1, 0⟩
  let aspect := width / height
  let theta := mVerticalFov * (Real.pi / 180)
  let halfHeight := Real.tan (theta * (1/2))
  let viewportHeight := 2 * halfHeight
  let viewportWidth := aspect * viewportHeight
  let w := (lookFrom.sub lookAt).normalize
  let u := (Vec3.cross vup w).normalize
  let v := Vec3.cross w u
  let horizontal := Vec3.smul (mFocusDistance * viewportWidth) u
  let vertical := Vec3.smul (mFocusDistance * viewportHeight) v
  let lowerLeft :=
    ((lookFrom.sub (Vec3.smul (1/2) horizontal)).sub
        (Vec3.smul (1/2) vertical)).sub (Vec3.smul mFocusDistance w)
  { origin := lookFrom,
    lensRadius := mAperture * (1/2),
    lowerLeft := lowerLeft,
    horizontal := horizontal,
    vertical := vertical,
    u := u,
    v := v,
    w := w }

/-- Modelled from the spec, section 4.3: the pure thin-lens mapping written
exactly as the spec states it, taking an already normalized view direction:
`w = normalize(position - lookAt)` with `lookAt = position + direction`,
`u = normalize(cross(worldUp, w))`, `v = cross(w, u)`,
`halfHeight = tan(radians(fov)/2)`, viewport height `2*halfHeight`, width
`aspect*height`, `horizontal = focusDistance*viewportWidth*u`,
`vertical = focusDistance*viewportHeight*v`, and
`lowerLeft = position - horizontal/2 - vertical/2 - focusDistance*w`. -/
def specThinLens (position direction : Vec3)
    (fov aperture focusDistance width height : ℝ) : CameraParams :=
  let lookAt := position.add direction
  let worldUp : Vec3 := ⟨0, 1, 0⟩
  let aspect := width / height
  let halfHeight := Real.tan (fov * (Real.pi / 180) * (1/2))
  let viewportHeight := 2 * halfHeight
  let viewportWidth := aspect * viewportHeight
  let w := (position.sub lookAt).normalize
  let u := (Vec3.cross worldUp w).normalize
  let v := Vec3.cross w u
  let horizontal := Vec3.smul (focusDistance * viewportWidth) u
  let vertical := Vec3.smul (focusDistance * viewportHeight) v
  let lowerLeft :=
    ((position.sub (Vec3.smul (1/2) horizontal)).sub
        (Vec3.smul (1/2) vertical)).sub (Vec3.smul focusDistance w)
  { origin := position,
    lensRadius := aperture * (1/2),
    lowerLeft := lowerLeft,
    horizontal := horizontal,
    vertical := vertical,
    u := u,
    v := v,
    w := w }

/-- The camera parameters for the scenario of spec section 8: position
`(13,2,3)`, view direction toward `(0,1,0)`, fov 20 degrees, aperture 0.05,
and the focus distance `length((0,1,0)-(13,2,3))` set by
`RayTracer::create` (RayTracer.cpp:190-193), at a 1280x720 extent. -/
def testParams : CameraParams :=
  makeCameraParams ⟨13, 2, 3⟩ ⟨-13, -1, -3⟩ 20 (1/20)
    (Vec3.length ⟨-13, -1, -3⟩) 1280 720

/-- The camera parameters for a view direction exactly parallel to
world-up (the degenerate case of spec sections 4.3, 8 and 9). -/
def degenerateParams : CameraParams :=
  makeCameraParams ⟨0, 0, 0⟩ ⟨0, 1, 0⟩ 20 (1/20) 10 1280 720

end

end CameraMath


/-! ## Helper lemmas about the loop model -/

namespace RTLoop

/-- After `RayTracer::render` records a frame, `mResetAccum` is false: the
clear branch resets it, and the branch can only be skipped when it was
already false. -/
theorem render_fst_resetAccum (t : Tracer) (i f : Nat) :
    ((t.render i f).1).resetAccum = false := by
  unfold Tracer.render
  rcases hr : t.resetAccum <;> rcases hf : f == 0 <;> simp [hr, hf]

/-- `mAccumInitialized` after a recorded frame: set by the clear branch,
otherwise unchanged. -/
theorem render_fst_accumInit (t : Tracer) (i f : Nat) :
    ((t.render i f).1).accumInitialized
      = (t.resetAccum || f == 0 || t.accumInitialized) := by
  unfold Tracer.render
  rcases hr : t.resetAccum <;> rcases hf : f == 0 <;> simp [hr, hf]

/-- The accumulation image is cleared in a recording exactly when
`mResetAccum || frameIndex == 0` held on entry (RayTracer.cpp:564). -/
theorem render_obs_cleared (t : Tracer) (i f : Nat) :
    (t.render i f).2.cleared = (t.resetAccum || f == 0) := by
  unfold Tracer.render
  rcases hr : t.resetAccum <;> rcases hf : f == 0 <;> simp [hr, hf]

/-- `mAccumInitialized` at the moment the dispatch is recorded. -/
theorem render_obs_accumInit (t : Tracer) (i f : Nat) :
    (t.render i f).2.accumInitAtDispatch
      = (t.resetAccum || f == 0 || t.accumInitialized) := by
  unfold Tracer.render
  rcases hr : t.resetAccum <;> rcases hf : f == 0 <;> simp [hr, hf]

/-- No setter touches `mAccumInitialized`. -/
theorem applyUI_accumInit (t : Tracer) (e : UIEvent) :
    (applyUI t e).accumInitialized = t.accumInitialized := by
  rcases e with n | a | d | f | d
  case setFocusDist =>
    by_cases hd : (0 : ℚ) < d <;> simp [applyUI, Tracer.setFocusDistance, hd]
  all_goals rfl

/-- Every setter either raises the invalidation flag or leaves the tracer
unchanged (the latter only for `setFocusDistance` with a non-positive
argument). -/
theorem applyUI_reset (t : Tracer) (e : UIEvent) :
    (applyUI t e).resetAccum = true ∨ applyUI t e = t := by
  rcases e with n | a | d | f | d
  case setFocusDist =>
    by_cases hd : (0 : ℚ) < d
    · exact Or.inl (by simp [applyUI, Tracer.setFocusDistance, hd])
    · exact Or.inr (by simp [applyUI, Tracer.setFocusDistance, hd])
  all_goals exact Or.inl rfl

/-- The slider phase never touches `mAccumInitialized`. -/
theorem applyUIEvents_fst_accumInit (es : List UIEvent) :
    ∀ p : Tracer × Nat,
      (applyUIEvents es p).1.accumInitialized = p.1.accumInitialized := by
  induction es with
  | nil => intro p; rfl
  | cons e es ih =>
      intro p
      simpa [applyUIEvents, applyUI_accumInit] using ih (applyUI p.1 e, 0)

/-- Once a slider zeroes the counter it stays zero through the rest of the
slider phase. -/
theorem applyUIEvents_snd_zero (es : List UIEvent) :
    ∀ t : Tracer, (applyUIEvents es (t, 0)).2 = 0 := by
  induction es with
  | nil => intro t; rfl
  | cons e es ih => intro t; simpa [applyUIEvents] using ih (applyUI t e)

/-- A non-empty slider phase leaves the counter at zero (App.cpp:358-378). -/
theorem applyUIEvents_cons_snd (e : UIEvent) (es : List UIEvent)
    (p : Tracer × Nat) : (applyUIEvents (e :: es) p).2 = 0 := by
  simpa [applyUIEvents] using applyUIEvents_snd_zero es (applyUI p.1 e)

end RTLoop

namespace RTLoop

/-- Characterization of the observations of an iteration that records a
frame: the clear condition, the flag at the start of the barrier
sequencing, the frame index handed to the recording, and
`mAccumInitialized` at the dispatch. -/
theorem step_rendered_obs (s : AppState) (inp : FrameInput) (s' : AppState)
    (obs : FrameObs) (h : step s inp = some (s', obs)) (hr : obs.rendered = true) :
    obs.cleared = ((camTracer s inp).resetAccum || (camSF s inp) == 0) ∧
    obs.resetAtRenderStart = (camTracer s inp).resetAccum ∧
    obs.frameIndexUsed = camSF s inp ∧
    obs.accumInitAtDispatch
      = ((camTracer s inp).resetAccum || (camSF s inp) == 0
          || (camTracer s inp).accumInitialized) := by
  obtain ⟨rz, cc, acq, ui, pr, nw, nh, nc⟩ := inp
  cases rz
  case true =>
    simp [step] at h
    obtain ⟨-, hobs⟩ := h
    rw [← hobs] at hr
    simp [skipObs] at hr
  case false =>
    cases acq
    case outOfDate =>
      simp [step] at h
      obtain ⟨-, hobs⟩ := h
      rw [← hobs] at hr
      simp [skipObs] at hr
    case suboptimal => simp [step] at h
    case errorOther => simp [step] at h
    case success idx =>
      cases pr
      case errorOther => simp [step] at h
      all_goals
        simp [step] at h
        obtain ⟨-, hobs⟩ := h
        rw [← hobs]
        exact ⟨render_obs_cleared _ idx _, rfl, rfl, render_obs_accumInit _ idx _⟩

/-- State after an iteration that records a frame, has no slider events and
presents successfully. -/
theorem step_rendered_success_state (s : AppState) (inp : FrameInput)
    (s' : AppState) (obs : FrameObs) (h : step s inp = some (s', obs))
    (hr : obs.rendered = true) (hpr : inp.present = .success) (hui : inp.ui = []) :
    s'.tracer.resetAccum = false ∧
    s'.tracer.accumInitialized
      = ((camTracer s inp).resetAccum || (camSF s inp) == 0
          || (camTracer s inp).accumInitialized) ∧
    s'.sampleFrame = (camSF s inp + 1) % U32 ∧
    s'.currentFrame = (s.currentFrame + 1) % 2 := by
  obtain ⟨rz, cc, acq, ui, pr, nw, nh, nc⟩ := inp
  cases rz
  case true =>
    simp [step] at h
    obtain ⟨-, hobs⟩ := h
    rw [← hobs] at hr
    simp [skipObs] at hr
  case false =>
    subst hpr
    subst hui
    cases acq
    case outOfDate =>
      simp [step] at h
      obtain ⟨-, hobs⟩ := h
      rw [← hobs] at hr
      simp [skipObs] at hr
    case suboptimal => simp [step] at h
    case errorOther => simp [step] at h
    case success idx =>
      simp [step, applyUIEvents] at h
      obtain ⟨hs', -⟩ := h
      rw [← hs']
      exact ⟨render_fst_resetAccum _ idx _, render_fst_accumInit _ idx _, rfl, rfl⟩


/-- In a well-formed state the value `mAccumInitialized` will have at the
dispatch of this iteration is true: either a clear happens in this
recording, or the image was already cleared since creation/resize. -/
theorem wf_accumInitAtDispatch (s : AppState) (inp : FrameInput) (hwf : WF s) :
    ((camTracer s inp).resetAccum || (camSF s inp) == 0
      || (camTracer s inp).accumInitialized) = true := by
  obtain ⟨-, -, h3⟩ := hwf
  by_cases hcc : inp.camChanged = true
  · simp [camTracer, hcc, Tracer.setCamera]
  · simp only [Bool.not_eq_true] at hcc
    simp only [camTracer, camSF, hcc, Bool.false_eq_true, if_false]
    rcases hra : s.tracer.resetAccum with - | -
    · rcases hai : s.tracer.accumInitialized with - | -
      · exact absurd (h3 hai) (by simp [hra])
      · simp
    · simp

/-- The loop invariant `WF` holds in every reachable state. -/
theorem reachable_wf (s : AppState) (h : Reachable s) : WF s := by
  induction h with
  | init w h c =>
      refine ⟨by norm_num [initialState, U32], fun _ => ?_, fun _ => rfl⟩
      norm_num [initialState]
  | next s inp s' obs hs hstep ih =>
      obtain ⟨rz, cc, acq, ui, pr, nw, nh, nc⟩ := inp
      cases rz
      case true =>
        simp [step] at hstep
        obtain ⟨hs', -⟩ := hstep
        rw [← hs']
        exact ⟨by norm_num [U32], fun _ => by norm_num, fun _ => rfl⟩
      case false =>
        cases acq
        case outOfDate =>
          simp [step] at hstep
          obtain ⟨hs', -⟩ := hstep
          rw [← hs']
          exact ⟨by norm_num [U32], fun _ => by norm_num, fun _ => rfl⟩
        case suboptimal => simp [step] at hstep
        case errorOther => simp [step] at hstep
        case success idx =>
          cases pr
          case errorOther => simp [step] at hstep
          case outOfDate =>
            simp [step] at hstep
            obtain ⟨hs', -⟩ := hstep
            rw [← hs']
            refine ⟨Nat.mod_lt _ (by norm_num [U32]), fun _ => ?_, fun _ => rfl⟩
            norm_num [U32]
          case suboptimal =>
            simp [step] at hstep
            obtain ⟨hs', -⟩ := hstep
            rw [← hs']
            refine ⟨Nat.mod_lt _ (by norm_num [U32]), fun _ => ?_, fun _ => rfl⟩
            norm_num [U32]
          case success =>
            simp [step] at hstep
            obtain ⟨hs', -⟩ := hstep
            rw [← hs']
            refine ⟨Nat.mod_lt _ (by norm_num [U32]), ?_, ?_⟩
            · -- pending invalidation implies counter at most 1
              intro hra
              cases ui with
              | nil =>
                  exact absurd hra (by
                    simp [applyUIEvents, render_fst_resetAccum])
              | cons e es =>
                  simp [applyUIEvents_cons_snd]
                  norm_num [U32]
          -- accumulation-initialized invariant
            · intro hai
              exfalso
              rw [applyUIEvents_fst_accumInit] at hai
              have : (((camTracer s ⟨false, cc, .success idx, ui, .success, nw, nh, nc⟩).render idx
                  (camSF s ⟨false, cc, .success idx, ui, .success, nw, nh, nc⟩)).1).accumInitialized = true := by
                rw [render_fst_accumInit]
                exact wf_accumInitAtDispatch s _ ih
              rw [this] at hai
              cases hai


/-- An event-free iteration from a steady state: the tracer is unchanged,
the frame-in-flight index advances mod 2 and the `uint32_t` sample counter
advances mod 2^32. -/
theorem step_idle_steady (s : AppState) (h : Steady s) :
    step s idleInput =
      some ({ tracer := s.tracer, currentFrame := (s.currentFrame + 1) % 2,
              sampleFrame := (s.sampleFrame + 1) % U32 },
            { rendered := true, cleared := (s.sampleFrame == 0),
              resetAtRenderStart := false, frameIndexUsed := s.sampleFrame,
              accumInitAtDispatch := true }) := by
  obtain ⟨t, cf, sf⟩ := s
  obtain ⟨w, ht, ra, ai, si, ap, fv, fd, sp, md⟩ := t
  obtain ⟨h1, h2, h3⟩ := h
  simp only at h1 h2 h3
  subst h1
  subst h2
  simp [step, idleInput, camTracer, camSF, applyUIEvents, Tracer.render, h3]

/-- State-only version of `step_idle_steady`. -/
theorem stepA_idle_steady (s : AppState) (h : Steady s) :
    stepA s idleInput =
      { tracer := s.tracer, currentFrame := (s.currentFrame + 1) % 2,
        sampleFrame := (s.sampleFrame + 1) % U32 } := by
  unfold stepA
  rw [step_idle_steady s h]

/-- `n` event-free iterations from a steady normalized state: the tracer is
unchanged and the counters advance mod 2 and mod 2^32; reachability is
preserved. -/
theorem idleIter_steady (n : Nat) :
    ∀ s : AppState, Steady s → s.currentFrame < 2 → s.sampleFrame < U32 →
      idleIter n s
        = { tracer := s.tracer, currentFrame := (s.currentFrame + n) % 2,
            sampleFrame := (s.sampleFrame + n) % U32 } ∧
      (Reachable s → Reachable (idleIter n s)) := by
  induction n with
  | zero =>
      intro s hs hcf hsf
      refine ⟨?_, fun hr => hr⟩
      obtain ⟨t, cf, sf⟩ := s
      simp only [idleIter]
      rw [Nat.add_zero, Nat.add_zero, Nat.mod_eq_of_lt hcf, Nat.mod_eq_of_lt hsf]
  | succ n ih =>
      intro s hs hcf hsf
      have hstep := stepA_idle_steady s hs
      have hs' : Steady (stepA s idleInput) := by rw [hstep]; exact hs
      have hcf' : (stepA s idleInput).currentFrame < 2 := by
        rw [hstep]; exact Nat.mod_lt _ (by norm_num)
      have hsf' : (stepA s idleInput).sampleFrame < U32 := by
        rw [hstep]; exact Nat.mod_lt _ (by norm_num [U32])
      obtain ⟨heq, hre⟩ := ih (stepA s idleInput) hs' hcf' hsf'
      constructor
      · show idleIter n (stepA s idleInput) = _
        rw [heq, hstep]
        simp only [Nat.mod_add_mod, Nat.add_assoc, Nat.add_comm 1 n]
      · intro hr
        show Reachable (idleIter n (stepA s idleInput))
        refine hre ?_
        rw [hstep]
        exact Reachable.next s idleInput _ _ hr (step_idle_steady s hs)

end RTLoop

namespace RTLoop

/-- The first iteration from the initial state with no events: the
accumulation image is cleared (flag was up from creation) and the counter
ends at 1. -/
theorem step_initial_idle :
    step (initialState 640 480 1) idleInput =
      some (baseState,
        { rendered := true, cleared := true, resetAtRenderStart := true,
          frameIndexUsed := 0, accumInitAtDispatch := true }) := by
  simp [step, initialState, idleInput, baseState, steadyTracer, Tracer.create,
    Tracer.setSamplesPerPixel, Tracer.setAperture, Tracer.render,
    applyUIEvents, camTracer, camSF, U32]

/-- The first iteration from the initial state with a camera mutation. -/
theorem step_initial_cam :
    step (initialState 640 480 1) camInput =
      some (baseState,
        { rendered := true, cleared := true, resetAtRenderStart := true,
          frameIndexUsed := 0, accumInitAtDispatch := true }) := by
  simp [step, initialState, idleInput, camInput, baseState, steadyTracer,
    Tracer.create, Tracer.setSamplesPerPixel, Tracer.setAperture,
    Tracer.setCamera, Tracer.render, applyUIEvents, camTracer, camSF, U32]

/-- An event-free iteration from `baseState`: no clear, counter ends 2. -/
theorem step_base_idle :
    step baseState idleInput =
      some ({ tracer := steadyTracer, currentFrame := 0, sampleFrame := 2 },
        { rendered := true, cleared := false, resetAtRenderStart := false,
          frameIndexUsed := 1, accumInitAtDispatch := true }) := by
  simp [step, idleInput, baseState, steadyTracer, Tracer.render,
    applyUIEvents, camTracer, camSF, U32]

/-- An iteration from `baseState` whose present returns
`VK_SUBOPTIMAL_KHR`: the surface is recreated and the counter ends 1. -/
theorem step_base_subOpt :
    step baseState subOptInput =
      some ({ tracer :=
                { width := 0, height := 0, resetAccum := true,
                  accumInitialized := false, swapInit := [],
                  aperture := 1/20, verticalFov := 20, focusDistance := 10,
                  samplesPerPixel := 4, maxDepth := 12 },
              currentFrame := 0, sampleFrame := 1 },
        { rendered := true, cleared := false, resetAtRenderStart := false,
          frameIndexUsed := 1, accumInitAtDispatch := true }) := by
  simp [step, idleInput, subOptInput, baseState, steadyTracer, Tracer.render,
    Tracer.resize, applyUIEvents, camTracer, camSF, U32]


/-- C5 counterexample: from a state with the flag down,
`setFocusDistance(0)` leaves the accumulation-reset flag false, refuting
"every setter call sets the flag for every argument value". -/
theorem C5_counterexample :
    steadyTracer.resetAccum = false ∧
    (steadyTracer.setFocusDistance 0).resetAccum = false := by
  refine ⟨rfl, ?_⟩
  norm_num [steadyTracer, Tracer.setFocusDistance]

/-- C5 (amended): every exposed setter raises the accumulation-reset flag
for every argument value, except `setFocusDistance`, which raises it
exactly when its argument is positive (and otherwise is a no-op). -/
theorem C5_amended (t : Tracer) (fd a f : ℚ) (n d : Nat) :
    (t.setCamera fd).resetAccum = true ∧
    (t.setSamplesPerPixel n).resetAccum = true ∧
    (t.setAperture a).resetAccum = true ∧
    (t.setFov f).resetAccum = true ∧
    (t.setMaxDepth d).resetAccum = true ∧
    ((t.setFocusDistance fd).resetAccum = true ↔ (0 < fd ∨ t.resetAccum = true)) := by
  refine ⟨rfl, rfl, rfl, rfl, rfl, ?_⟩
  by_cases hd : (0 : ℚ) < fd <;> simp [Tracer.setFocusDistance, hd]

/-- C6 counterexample: `setSamplesPerPixel(33)` stores 33, not the claimed
clamp to [1,32]; `setMaxDepth(65)` stores 65, not the claimed clamp to
[1,64]. -/
theorem C6_counterexample :
    (steadyTracer.setSamplesPerPixel 33).samplesPerPixel = 33 ∧
    min 32 (max 1 33) = 32 ∧
    (steadyTracer.setMaxDepth 65).maxDepth = 65 ∧
    min 64 (max 1 65) = 64 := by
  refine ⟨rfl, by norm_num, rfl, by norm_num⟩

/-- C6 (amended): the setters clamp from below only: the stored
samples-per-pixel is `max 1 N` and the stored max depth is `max 1 D` (the
[1,32] and [1,64] ranges are only the UI slider ranges). -/
theorem C6_amended (t : Tracer) (n d : Nat) :
    (t.setSamplesPerPixel n).samplesPerPixel = max 1 n ∧
    (t.setMaxDepth d).maxDepth = max 1 d :=
  ⟨rfl, rfl⟩

/-- C7: an iteration that sees a pending framebuffer resize recreates the
surface-dependent resources at the new resolution, marks every image slot
uninitialized, invalidates the accumulation image, zeroes the sample
counter, and records no compute dispatch. -/
theorem C7_resize_skips_frame (s : AppState) (inp : FrameInput)
    (s' : AppState) (obs : FrameObs) (hrz : inp.resized = true)
    (h : step s inp = some (s', obs)) :
    s'.tracer.width = inp.newWidth ∧ s'.tracer.height = inp.newHeight ∧
    s'.tracer.swapInit = List.replicate inp.newImageCount false ∧
    (∀ i : Nat, s'.tracer.swapInit.getD i false = false) ∧
    s'.tracer.resetAccum = true ∧
    s'.tracer.accumInitialized = false ∧
    s'.sampleFrame = 0 ∧
    obs.rendered = false := by
  obtain ⟨rz, cc, acq, ui, pr, nw, nh, nc⟩ := inp
  simp only at hrz
  subst hrz
  simp [step] at h
  obtain ⟨hs', hobs⟩ := h
  rw [← hs', ← hobs]
  refine ⟨rfl, rfl, rfl, ?_, rfl, rfl, rfl, rfl⟩
  intro i
  rcases Nat.lt_or_ge i nc with hi | hi
  · simp [Tracer.resize, List.getD, List.getElem?_replicate, hi]
  · simp [Tracer.resize, List.getD, List.getElem?_replicate, Nat.not_lt.mpr hi]

/-- C7 witness at a concrete resize input. -/
theorem C7_witness :
    resizeInput.resized = true ∧
    step baseState resizeInput =
      some ({ tracer := steadyTracer.resize 800 600 2,
              currentFrame := 1, sampleFrame := 0 }, skipObs) ∧
    (steadyTracer.resize 800 600 2).swapInit = List.replicate 2 false ∧
    skipObs.rendered = false := by
  have hstep : step baseState resizeInput =
      some ({ tracer := steadyTracer.resize 800 600 2,
              currentFrame := 1, sampleFrame := 0 }, skipObs) := by
    simp [step, resizeInput, idleInput, baseState]
  refine ⟨rfl, hstep, ?_, ?_⟩
  · exact (C7_resize_skips_frame baseState resizeInput _ _ rfl hstep).2.2.1
  · exact (C7_resize_skips_frame baseState resizeInput _ _ rfl hstep).2.2.2.2.2.2.2


/-- C10: at the acquire step only `VK_ERROR_OUT_OF_DATE_KHR` is recoverable:
the loop recreates the surface, resizes the tracer at the reported extent,
zeroes the sample counter and skips the frame; any other non-success
acquire result, including `VK_SUBOPTIMAL_KHR`, makes `VK_CHECK` throw and
terminates the loop. -/
theorem C10_acquire_handling (s : AppState) (inp : FrameInput)
    (hrz : inp.resized = false) :
    (inp.acquire = .outOfDate →
      (step s inp).map
          (fun p => (p.1.sampleFrame, p.1.tracer.resetAccum,
            p.1.tracer.width, p.1.tracer.height, p.2.rendered))
        = some (0, true, inp.newWidth, inp.newHeight, false)) ∧
    (inp.acquire = .suboptimal → step s inp = none) ∧
    (inp.acquire = .errorOther → step s inp = none) := by
  obtain ⟨rz, cc, acq, ui, pr, nw, nh, nc⟩ := inp
  simp only at hrz
  subst hrz
  refine ⟨fun hacq => ?_, fun hacq => ?_, fun hacq => ?_⟩ <;>
    (simp only at hacq; subst hacq; simp [step, skipObs, Tracer.resize])

/-- C10 witness: the three acquire outcomes at concrete inputs. -/
theorem C10_witness :
    oodInput.resized = false ∧ oodInput.acquire = .outOfDate ∧
    (step baseState oodInput).map
        (fun p => (p.1.sampleFrame, p.1.tracer.resetAccum,
          p.1.tracer.width, p.1.tracer.height, p.2.rendered))
      = some (0, true, 800, 600, false) ∧
    acqSubOptInput.acquire = .suboptimal ∧
    step baseState acqSubOptInput = none :=
  ⟨rfl, rfl, (C10_acquire_handling baseState oodInput rfl).1 rfl, rfl,
    (C10_acquire_handling baseState acqSubOptInput rfl).2.1 rfl⟩

/-- C2: in every reachable state, whenever an iteration records a compute
dispatch, the accumulation image has been zero-cleared at least once since
its creation or most recent resize (`mAccumInitialized` is true at the
moment the dispatch is recorded, counting a clear recorded earlier in the
same command buffer, which the barriers order before the dispatch). -/
theorem C2_dispatch_after_clear (s : AppState) (hs : Reachable s)
    (inp : FrameInput) (s' : AppState) (obs : FrameObs)
    (h : step s inp = some (s', obs)) (hr : obs.rendered = true) :
    obs.accumInitAtDispatch = true := by
  obtain ⟨-, -, -, h4⟩ := step_rendered_obs s inp s' obs h hr
  rw [h4]
  exact wf_accumInitAtDispatch s inp (reachable_wf s hs)

/-- C2 witness at the initial state and an event-free frame. -/
theorem C2_witness :
    Reachable (initialState 640 480 1) ∧
    step (initialState 640 480 1) idleInput =
      some (baseState,
        { rendered := true, cleared := true, resetAtRenderStart := true,
          frameIndexUsed := 0, accumInitAtDispatch := true }) ∧
    (true : Bool) = true :=
  ⟨Reachable.init 640 480 1, step_initial_idle,
    C2_dispatch_after_clear (initialState 640 480 1) (Reachable.init 640 480 1)
      idleInput baseState _ step_initial_idle rfl⟩


/-- C3 counterexample: from the initial state (sampleFrame = 0), a camera
translation frame completes with `sampleFrame = 1`, not 0 as claimed: the
counter is zeroed when the mutation is processed and the unconditional
`++sampleFrame` (App.cpp:441) then leaves 1. -/
theorem C3_counterexample :
    (initialState 640 480 1).sampleFrame = 0 ∧
    step (initialState 640 480 1) camInput =
      some (baseState,
        { rendered := true, cleared := true, resetAtRenderStart := true,
          frameIndexUsed := 0, accumInitAtDispatch := true }) ∧
    baseState.sampleFrame ≠ 0 := by
  refine ⟨rfl, step_initial_cam, ?_⟩
  norm_num [baseState]

/-- C3 (amended): from a state with `sampleFrame = 0`, a camera translation
raises the reset flag (visible as the flag at the start of that frame's
barrier sequencing); that frame's dispatch receives frame index 0 and
clears the accumulation image; after it completes, `resetAccumulation` is
false and `sampleFrame` is 1 (not 0: the unconditional post-frame increment
has run); after one further frame with no input, the dispatch receives
frame index 1 and `sampleFrame` is 2. -/
theorem C3_amended :
    (initialState 640 480 1).sampleFrame = 0 ∧
    step (initialState 640 480 1) camInput =
      some (baseState,
        { rendered := true, cleared := true, resetAtRenderStart := true,
          frameIndexUsed := 0, accumInitAtDispatch := true }) ∧
    baseState.tracer.resetAccum = false ∧
    baseState.sampleFrame = 1 ∧
    step baseState idleInput =
      some ({ tracer := steadyTracer, currentFrame := 0, sampleFrame := 2 },
        { rendered := true, cleared := false, resetAtRenderStart := false,
          frameIndexUsed := 1, accumInitAtDispatch := true }) :=
  ⟨rfl, step_initial_cam, rfl, rfl, step_base_idle⟩

/-- C4 counterexample: a displayed frame with no camera mutation in which
`present` returns `VK_SUBOPTIMAL_KHR`: the loop zeroes the counter and the
post-frame increment leaves 1, so the counter does not increase by 1
(from 1 it would have to become 2). -/
theorem C4_counterexample :
    Reachable baseState ∧
    baseState.sampleFrame = 1 ∧
    subOptInput.camChanged = false ∧ subOptInput.ui = [] ∧
    step baseState subOptInput =
      some ({ tracer :=
                { width := 0, height := 0, resetAccum := true,
                  accumInitialized := false, swapInit := [],
                  aperture := 1/20, verticalFov := 20, focusDistance := 10,
                  samplesPerPixel := 4, maxDepth := 12 },
              currentFrame := 0, sampleFrame := 1 },
        { rendered := true, cleared := false, resetAtRenderStart := false,
          frameIndexUsed := 1, accumInitAtDispatch := true }) ∧
    (1 : Nat) ≠ baseState.sampleFrame + 1 := by
  refine ⟨Reachable.next _ idleInput _ _ (Reachable.init 640 480 1)
    step_initial_idle, rfl, rfl, rfl, step_base_subOpt, ?_⟩
  norm_num [baseState]

/-- C4 (amended): in any frame in which a camera mutation takes effect the
render recording receives frame index 0; and a displayed frame with no
camera mutation, no slider change and a success present advances the
counter by exactly 1 modulo 2^32.  (Surface recreation events, out-of-date
or suboptimal results, also zero the counter without a mutation, and the
counter wraps after 2^32 frames.) -/
theorem C4_amended (s : AppState) (inp : FrameInput) (s' : AppState)
    (obs : FrameObs) (h : step s inp = some (s', obs))
    (hr : obs.rendered = true) :
    (inp.camChanged = true → obs.frameIndexUsed = 0) ∧
    (inp.camChanged = false → inp.ui = [] → inp.present = .success →
      s'.sampleFrame = (s.sampleFrame + 1) % U32) := by
  constructor
  · intro hcc
    obtain ⟨-, -, h3, -⟩ := step_rendered_obs s inp s' obs h hr
    rw [h3]
    simp [camSF, hcc]
  · intro hcc hui hpr
    obtain ⟨-, -, h3, -⟩ := step_rendered_success_state s inp s' obs h hr hpr hui
    rw [h3]
    simp [camSF, hcc]

/-- C4 witness: the two conjuncts at concrete frames (a camera-mutation
frame from the initial state; an event-free frame from `baseState`). -/
theorem C4_witness :
    camInput.camChanged = true ∧
    ({ rendered := true, cleared := true, resetAtRenderStart := true,
       frameIndexUsed := 0, accumInitAtDispatch := true } : FrameObs).frameIndexUsed = 0 ∧
    idleInput.camChanged = false ∧ idleInput.ui = [] ∧
    idleInput.present = .success ∧
    ({ tracer := steadyTracer, currentFrame := 0, sampleFrame := 2 } :
        AppState).sampleFrame = (baseState.sampleFrame + 1) % U32 :=
  ⟨rfl,
    (C4_amended (initialState 640 480 1) camInput baseState _
        step_initial_cam rfl).1 rfl,
    rfl, rfl, rfl,
    (C4_amended baseState idleInput _ _ step_base_idle rfl).2 rfl rfl rfl⟩


/-- C1 (amended): in any reachable state, a recorded frame clears the
accumulation image iff `mResetAccum` was true at the start of the barrier
sequencing OR the frame index was 0 (RayTracer.cpp:564); absent counter
wrap-around the second disjunct only occurs together with the first, and in
particular the image is never cleared on two consecutive recorded frames
without an intervening invalidation (no slider change or non-success
present after the first frame, no camera mutation in the second). -/
theorem C1_amended (s : AppState) (hs : Reachable s) (inp : FrameInput)
    (s' : AppState) (obs : FrameObs) (h : step s inp = some (s', obs))
    (hr : obs.rendered = true) :
    (obs.cleared = true ↔
      (obs.resetAtRenderStart = true ∨ obs.frameIndexUsed = 0)) ∧
    (obs.cleared = true → inp.ui = [] → inp.present = .success →
      ∀ (inp2 : FrameInput) (s2 : AppState) (obs2 : FrameObs),
        inp2.camChanged = false → step s' inp2 = some (s2, obs2) →
        obs2.rendered = true → obs2.cleared = false) := by
  obtain ⟨hcl, hra, hfi, -⟩ := step_rendered_obs s inp s' obs h hr
  constructor
  · rw [hcl, hra, hfi]
    simp [Bool.or_eq_true, beq_iff_eq]
  · intro hclr hui hpr inp2 s2 obs2 hcc2 h2 hr2
    obtain ⟨hreset1, -, hsf1, -⟩ :=
      step_rendered_success_state s inp s' obs h hr hpr hui
    obtain ⟨hcl2, -, -, -⟩ := step_rendered_obs s' inp2 s2 obs2 h2 hr2
    rw [hcl2]
    have hct2 : camTracer s' inp2 = s'.tracer := by simp [camTracer, hcc2]
    have hcs2 : camSF s' inp2 = s'.sampleFrame := by simp [camSF, hcc2]
    rw [hct2, hcs2, hreset1, hsf1]
    rw [hcl] at hclr
    have hx : camSF s inp ≤ 1 := by
      by_cases hcc : inp.camChanged = true
      · simp [camSF, hcc]
      · simp only [Bool.not_eq_true] at hcc
        have hct : camTracer s inp = s.tracer := by simp [camTracer, hcc]
        have hcs : camSF s inp = s.sampleFrame := by simp [camSF, hcc]
        rw [hct, hcs] at hclr
        rw [hcs]
        have hclr2 : s.tracer.resetAccum = true ∨ (s.sampleFrame == 0) = true := by
          simpa using hclr
        rcases hclr2 with h1 | h1
        · exact (reachable_wf s hs).2.1 h1
        · exact le_of_eq_of_le (beq_iff_eq.mp h1) (by norm_num)
    simp only [Bool.false_or, beq_eq_false_iff_ne, ne_eq]
    simp only [U32] at hx ⊢
    omega

/-- C1 counterexample: the original iff fails on a reachable state.  After
the first displayed frame the flag is down; `2^32 - 1` further event-free
frames wrap the `uint32_t` counter back to 0, and the next recorded frame
then clears the accumulation image although `mResetAccum` was false at the
start of its barrier sequencing. -/
theorem C1_counterexample :
    Reachable wrapState ∧
    (step wrapState idleInput).map
        (fun p => (p.2.rendered, p.2.cleared, p.2.resetAtRenderStart))
      = some (true, true, false) := by
  constructor
  · have hbase : Reachable baseState :=
      Reachable.next _ idleInput _ _ (Reachable.init 640 480 1) step_initial_idle
    have hsteady : Steady baseState := ⟨rfl, rfl, rfl⟩
    obtain ⟨heq, hre⟩ := idleIter_steady (U32 - 2) baseState hsteady
      (by norm_num [baseState]) (by norm_num [baseState, U32])
    have hpre : idleIter (U32 - 2) baseState = preWrapState := by
      rw [heq]
      show ({ tracer := steadyTracer,
              currentFrame := (1 + (U32 - 2)) % 2,
              sampleFrame := (1 + (U32 - 2)) % U32 } : AppState) = _
      have h2 : (1 + (U32 - 2)) % 2 = 1 := by norm_num [U32]
      have h3 : (1 + (U32 - 2)) % U32 = U32 - 1 := by norm_num [U32]
      rw [h2, h3]
      rfl
    have hreachpre : Reachable preWrapState := hpre ▸ hre hbase
    have hsteadypre : Steady preWrapState := ⟨rfl, rfl, rfl⟩
    have hwrap : ({ tracer := preWrapState.tracer,
                    currentFrame := (preWrapState.currentFrame + 1) % 2,
                    sampleFrame := (preWrapState.sampleFrame + 1) % U32 } : AppState)
        = wrapState := by
      show ({ tracer := steadyTracer, currentFrame := (1 + 1) % 2,
              sampleFrame := (U32 - 1 + 1) % U32 } : AppState) = _
      have h2 : (1 + 1) % 2 = 0 := by norm_num
      have h3 : (U32 - 1 + 1) % U32 = 0 := by norm_num [U32]
      rw [h2, h3]
      rfl
    exact hwrap ▸ Reachable.next _ idleInput _ _ hreachpre
      (step_idle_steady preWrapState hsteadypre)
  · rw [step_idle_steady wrapState ⟨rfl, rfl, rfl⟩]
    rfl

/-- C1 witness: the amended theorem applied to the first displayed frame
(which clears with the flag up) and the event-free frame after it (which
does not clear). -/
theorem C1_witness :
    Reachable (initialState 640 480 1) ∧
    ((true : Bool) = true ↔ ((true : Bool) = true ∨ (0 : Nat) = 0)) ∧
    ({ rendered := true, cleared := false, resetAtRenderStart := false,
       frameIndexUsed := 1, accumInitAtDispatch := true } : FrameObs).cleared
      = false := by
  have happ := C1_amended (initialState 640 480 1) (Reachable.init 640 480 1)
    idleInput baseState _ step_initial_idle rfl
  exact ⟨Reachable.init 640 480 1, happ.1,
    happ.2 rfl rfl rfl idleInput _ _ rfl step_base_idle rfl⟩

end RTLoop

namespace CameraMath

/-- The dot product of a vector with itself is nonnegative. -/
theorem Vec3.dot_nonneg (v : Vec3) : 0 ≤ v.dot v := by
  obtain ⟨x, y, z⟩ := v
  simp only [Vec3.dot]
  nlinarith [mul_self_nonneg x, mul_self_nonneg y, mul_self_nonneg z]

/-- Normalizing a vector that already has unit squared length is the
identity. -/
theorem normalize_of_dot_one (v : Vec3) (h : v.dot v = 1) :
    v.normalize = v := by
  obtain ⟨x, y, z⟩ := v
  simp only [Vec3.normalize, Vec3.length, h, Real.sqrt_one]
  simp

/-- Normalization is invariant under scaling by a positive constant. -/
theorem normalize_smul_pos (c : ℝ) (hc : 0 < c) (v : Vec3) :
    (Vec3.smul c v).normalize = v.normalize := by
  obtain ⟨x, y, z⟩ := v
  simp only [Vec3.smul, Vec3.normalize, Vec3.length, Vec3.dot]
  have h1 : c * x * (c * x) + c * y * (c * y) + c * z * (c * z)
      = c ^ 2 * (x * x + y * y + z * z) := by ring
  rw [h1, Real.sqrt_mul (sq_nonneg c), Real.sqrt_sq hc.le]
  have hc0 : c ≠ 0 := hc.ne'
  simp only [Vec3.mk.injEq]
  exact ⟨mul_div_mul_left x _ hc0, mul_div_mul_left y _ hc0,
    mul_div_mul_left z _ hc0⟩

/-- The cross product is orthogonal to its first argument. -/
theorem dot_cross_left (a b : Vec3) : (a.cross b).dot a = 0 := by
  obtain ⟨ax, ay, az⟩ := a
  obtain ⟨bx, by', bz⟩ := b
  simp only [Vec3.cross, Vec3.dot]
  ring

/-- The cross product is orthogonal to its second argument. -/
theorem dot_cross_right (a b : Vec3) : (a.cross b).dot b = 0 := by
  obtain ⟨ax, ay, az⟩ := a
  obtain ⟨bx, by', bz⟩ := b
  simp only [Vec3.cross, Vec3.dot]
  ring

/-- Lagrange identity for the squared length of a cross product. -/
theorem dot_cross_lagrange (a b : Vec3) :
    (a.cross b).dot (a.cross b) = a.dot a * b.dot b - (a.dot b) ^ 2 := by
  obtain ⟨ax, ay, az⟩ := a
  obtain ⟨bx, by', bz⟩ := b
  simp only [Vec3.cross, Vec3.dot]
  ring


/-- Square of the square root of 179. -/
theorem sqrt179_mul_self : Real.sqrt 179 * Real.sqrt 179 = 179 :=
  Real.mul_self_sqrt (by norm_num)

/-- The square root of 179 is nonzero. -/
theorem sqrt179_ne_zero : Real.sqrt 179 ≠ 0 := by
  have : (0:ℝ) < Real.sqrt 179 := Real.sqrt_pos.mpr (by norm_num)
  exact this.ne'

/-- Square of the square root of 178. -/
theorem sqrt178_mul_self : Real.sqrt 178 * Real.sqrt 178 = 178 :=
  Real.mul_self_sqrt (by norm_num)

/-- The square root of 178 is nonzero. -/
theorem sqrt178_ne_zero : Real.sqrt 178 ≠ 0 := by
  have : (0:ℝ) < Real.sqrt 178 := Real.sqrt_pos.mpr (by norm_num)
  exact this.ne'

/-- Closed form of the derived `w` basis vector at the spec section 8
scenario. -/
theorem testParams_w :
    testParams.w
      = ⟨13 / Real.sqrt 179, 1 / Real.sqrt 179, 3 / Real.sqrt 179⟩ := by
  have hdir : (⟨-13, -1, -3⟩ : Vec3).normalize
      = ⟨-13 / Real.sqrt 179, -1 / Real.sqrt 179, -3 / Real.sqrt 179⟩ := by
    simp only [Vec3.normalize, Vec3.length, Vec3.dot]
    norm_num
  show ((⟨13, 2, 3⟩ : Vec3).sub
      ((⟨13, 2, 3⟩ : Vec3).add ((⟨-13, -1, -3⟩ : Vec3).normalize))).normalize = _
  rw [hdir]
  have hsub : (⟨13, 2, 3⟩ : Vec3).sub
      ((⟨13, 2, 3⟩ : Vec3).add ⟨-13 / Real.sqrt 179, -1 / Real.sqrt 179,
        -3 / Real.sqrt 179⟩)
      = ⟨13 / Real.sqrt 179, 1 / Real.sqrt 179, 3 / Real.sqrt 179⟩ := by
    simp only [Vec3.sub, Vec3.add, Vec3.mk.injEq]
    refine ⟨by ring, by ring, by ring⟩
  rw [hsub]
  apply normalize_of_dot_one
  simp only [Vec3.dot]
  field_simp
  norm_num

/-- Closed form of the derived `u` basis vector at the spec section 8
scenario. -/
theorem testParams_u :
    testParams.u
      = ⟨3 / Real.sqrt 178, 0, -13 / Real.sqrt 178⟩ := by
  have hu0 : testParams.u = (Vec3.cross ⟨0, 1, 0⟩ testParams.w).normalize := rfl
  rw [hu0, testParams_w]
  have hcross : Vec3.cross ⟨0, 1, 0⟩
      (⟨13 / Real.sqrt 179, 1 / Real.sqrt 179, 3 / Real.sqrt 179⟩ : Vec3)
      = Vec3.smul (1 / Real.sqrt 179) ⟨3, 0, -13⟩ := by
    simp only [Vec3.cross, Vec3.smul, Vec3.mk.injEq]
    refine ⟨by ring, by ring, by ring⟩
  rw [hcross, normalize_smul_pos (1 / Real.sqrt 179)
    (by positivity) ⟨3, 0, -13⟩]
  simp only [Vec3.normalize, Vec3.length, Vec3.dot]
  norm_num

/-- Closed form of the derived `v` basis vector at the spec section 8
scenario. -/
theorem testParams_v :
    testParams.v
      = ⟨-13 / (Real.sqrt 179 * Real.sqrt 178),
         178 / (Real.sqrt 179 * Real.sqrt 178),
         -3 / (Real.sqrt 179 * Real.sqrt 178)⟩ := by
  have hv0 : testParams.v = Vec3.cross testParams.w testParams.u := rfl
  rw [hv0, testParams_w, testParams_u]
  simp only [Vec3.cross, Vec3.mk.injEq]
  refine ⟨by ring, ?_, by ring⟩
  field_simp
  ring


/-- C8: the per-frame camera parameter derivation is the spec's pure
thin-lens mapping (first conjunct: `makeCameraParams` coincides with the
mapping of spec section 4.3 applied to the normalized view direction), and
at the spec section 8 scenario (position (13,2,3), lookAt (0,1,0), world-up
(0,1,0), fov 20) the derived `w` is a unit vector that is a positive
multiple of position - lookAt, and `u`, `v`, `w` are pairwise orthogonal
unit vectors (exactly, in the idealised real model). -/
theorem C8_cameraBasis :
    (∀ (pos dir : Vec3) (fov ap fd wd ht : ℝ),
        makeCameraParams pos dir fov ap fd wd ht
          = specThinLens pos dir.normalize fov ap fd wd ht) ∧
    Vec3.dot testParams.w testParams.w = 1 ∧
    (∃ c : ℝ, 0 < c ∧
      testParams.w = Vec3.smul c ((⟨13, 2, 3⟩ : Vec3).sub ⟨0, 1, 0⟩)) ∧
    Vec3.dot testParams.u testParams.u = 1 ∧
    Vec3.dot testParams.v testParams.v = 1 ∧
    Vec3.dot testParams.u testParams.v = 0 ∧
    Vec3.dot testParams.u testParams.w = 0 ∧
    Vec3.dot testParams.v testParams.w = 0 := by
  refine ⟨fun pos dir fov ap fd wd ht => rfl, ?_, ?_, ?_, ?_, ?_, ?_, ?_⟩
  · rw [testParams_w]
    simp only [Vec3.dot]
    field_simp
    norm_num
  · refine ⟨1 / Real.sqrt 179, by positivity, ?_⟩
    rw [testParams_w]
    simp only [Vec3.smul, Vec3.sub, Vec3.mk.injEq]
    refine ⟨by ring, by ring, by ring⟩
  · rw [testParams_u]
    simp only [Vec3.dot]
    field_simp
    norm_num
  · rw [testParams_v]
    simp only [Vec3.dot]
    field_simp
    have h : Real.sqrt 179 * Real.sqrt 178 * (Real.sqrt 179 * Real.sqrt 178)
        = 179 * 178 := by
      rw [mul_mul_mul_comm, sqrt179_mul_self, sqrt178_mul_self]
    rw [h]
    norm_num
  · rw [testParams_u, testParams_v]
    simp only [Vec3.dot]
    field_simp
    ring
  · rw [testParams_u, testParams_w]
    simp only [Vec3.dot]
    field_simp
    ring
  · rw [testParams_v, testParams_w]
    simp only [Vec3.dot]
    field_simp
    ring


/-- C9: for a view direction exactly parallel to world-up the derivation is
NOT guarded: `w` comes out as (0,-1,0), the vector `cross(worldUp, w)`
handed to `normalize` is the zero vector, the normalization divisor (its
length) is exactly 0, and the resulting `u` is the degenerate zero vector
(in `float` arithmetic, 0/0 = NaN) rather than a unit vector produced by a
fallback.  This exhibits the failing input for the claim's required
guard. -/
theorem C9_degenerate_basis :
    degenerateParams.w = ⟨0, -1, 0⟩ ∧
    Vec3.cross ⟨0, 1, 0⟩ degenerateParams.w = ⟨0, 0, 0⟩ ∧
    Vec3.length (Vec3.cross ⟨0, 1, 0⟩ degenerateParams.w) = 0 ∧
    degenerateParams.u = ⟨0, 0, 0⟩ ∧
    Vec3.dot degenerateParams.u degenerateParams.u = 0 := by
  have hdir : (⟨0, 1, 0⟩ : Vec3).normalize = ⟨0, 1, 0⟩ :=
    normalize_of_dot_one _ (by norm_num [Vec3.dot])
  have hw : degenerateParams.w = ⟨0, -1, 0⟩ := by
    show ((⟨0, 0, 0⟩ : Vec3).sub
      ((⟨0, 0, 0⟩ : Vec3).add ((⟨0, 1, 0⟩ : Vec3).normalize))).normalize = _
    rw [hdir]
    have hsub : (⟨0, 0, 0⟩ : Vec3).sub ((⟨0, 0, 0⟩ : Vec3).add ⟨0, 1, 0⟩)
        = ⟨0, -1, 0⟩ := by
      simp only [Vec3.sub, Vec3.add, Vec3.mk.injEq]
      norm_num
    rw [hsub]
    exact normalize_of_dot_one _ (by norm_num [Vec3.dot])
  have hcross : Vec3.cross ⟨0, 1, 0⟩ (⟨0, -1, 0⟩ : Vec3) = ⟨0, 0, 0⟩ := by
    simp only [Vec3.cross, Vec3.mk.injEq]
    norm_num
  have hu : degenerateParams.u = ⟨0, 0, 0⟩ := by
    show (Vec3.cross ⟨0, 1, 0⟩ degenerateParams.w).normalize = _
    rw [hw, hcross]
    simp [Vec3.normalize]
  refine ⟨hw, by rw [hw]; exact hcross, ?_, hu, by rw [hu]; norm_num [Vec3.dot]⟩
  rw [hw, hcross]
  simp [Vec3.length, Vec3.dot]

end CameraMath
